import Mathlib

/-!
Verification of the JIRA notification-provider adapter
(`provider/jira/jira.go`): the Send pipeline (payload extraction and
validation, options extraction and validation, request construction,
delegation to the remote client) and the discovery aggregator
`GetOptValues` (two-level fan-out over accessible sites).

The remote client, the `domain` package, the error constructors and the
generic decoding libraries (`encoding/json`, `mapstructure`) are not part
of the source under verification; they are modelled from the spec as
abstract interfaces, as noted on each definition.  The remote client is a
record of functions, and every operation additionally records its call in
a trace so that claims about the number and the order of remote calls can
be stated.
-/

/-- Generic structured value, standing for the dynamic values that
Go's `interface\x7b\x7d` carries in JSON bodies and in the generic notifier
configuration. -/
inductive Jv where
  | null : Jv
  | bool : Bool → Jv
  | num : Int → Jv
  | str : String → Jv
  | arr : List Jv → Jv
  | obj : List (String × Jv) → Jv

/-- Kinds of adapter errors, used to distinguish the sub-taxonomy of the
error values below. -/
inductive ErrKind where
  | bodyValidation : ErrKind
  | optsValidation : ErrKind
  | remote : ErrKind
deriving DecidableEq

/-- Modelled from the spec: the polymorphic `domain.IError` abstraction
(its definition is not under `src/`).  The source of `jira.go` builds
errors through exactly two local constructors, `errFailedBodyValidation`
and `errFailedOptsValidation`; errors originating from the remote client
are opaque and represented by the `remote` variant. -/
inductive IError where
  | failedBodyValidation : String → IError
  | failedOptsValidation : String → IError
  | remote : String → IError
deriving DecidableEq

/-- The kind of an error value. -/
def IError.kind : IError → ErrKind
  | .failedBodyValidation _ => .bodyValidation
  | .failedOptsValidation _ => .optsValidation
  | .remote _ => .remote

/-- Modelled from the spec: the payload-validation error constructor from
the provider's error definitions (not under `src/`), carrying a message. -/
def errFailedBodyValidation (msg : String) : IError :=
  .failedBodyValidation msg

/-- Modelled from the spec: the options-validation error constructor from
the provider's error definitions (not under `src/`), carrying a message. -/
def errFailedOptsValidation (msg : String) : IError :=
  .failedOptsValidation msg

/-- Modelled from the spec: `domain.NotifierSecret`, the secret holding a
bearer token. -/
structure NotifierSecret where
  token : String
deriving DecidableEq

/-- Modelled from the spec: `domain.NotifierConfiguration`, the generic
configuration object `\x7bopts: \x7b...\x7d, secret: \x7btoken\x7d\x7d`. -/
structure NotifierConfiguration where
  opts : List (String × Jv)
  secret : Option NotifierSecret

/-- Modelled from the spec: `domain.Notifier`, whose `Config` field is a
possibly-absent pointer to a `NotifierConfiguration`. -/
structure Notifier where
  config : Option NotifierConfiguration

/-- `Payload` defines the primary content payload for the JIRA provider:
`summary` (a string) and `description` (a JSON object, possibly nil). -/
structure Payload where
  summary : String
  description : Option (List (String × Jv))

/-- `Opts` defines JIRA specific options: the secret plus the three
mapstructure-decoded fields `project_key`, `issue_type`, `cloud_id`. -/
structure Opts where
  secret : Option NotifierSecret
  projectKey : String
  issueType : String
  cloudId : String

/-- `Project` part of the upstream create-issue request (holds the key). -/
structure Project where
  key : String
deriving DecidableEq

/-- `IssueType` part of the upstream create-issue request (holds the name). -/
structure IssueType where
  name : String
deriving DecidableEq

/-- `Fields` of the upstream create-issue request. -/
structure Fields where
  project : Project
  issuetype : IssueType
  summary : String
  description : Option (List (String × Jv))

/-- The upstream create-issue request, composed from payload and options. -/
structure CreateIssueRequest where
  fields : Fields
  cloudId : String
  bearerToken : String

/-- Modelled from the spec: the opaque upstream response of the
create-issue operation. -/
structure CreateIssueResponse where
  raw : String
deriving DecidableEq

/-- Modelled from the spec: the `id`/`name` pair of an accessible site as
returned by the remote client. -/
structure Site where
  id : String
  name : String
deriving DecidableEq

/-- Modelled from the spec: an issue type returned by the remote client's
list-issue-types operation. -/
structure IssueTypeInfo where
  id : String
  name : String
deriving DecidableEq

/-- Modelled from the spec: a project returned by the remote client's
list-projects operation, carrying both its internal identifier and its
key. -/
structure ProjectInfo where
  id : String
  key : String
  name : String
deriving DecidableEq

/-- Modelled from the spec: the response of the list-projects operation,
whose `Values` field holds the projects. -/
structure ProjectsResponse where
  values : List ProjectInfo
deriving DecidableEq

/-- Request of the list-accessible-sites operation. -/
structure AccessibleResourcesRequest where
  bearerToken : String
deriving DecidableEq

/-- Request of the list-issue-types operation. -/
structure GetIssueTypesRequest where
  bearerToken : String
  cloudId : String
deriving DecidableEq

/-- Request of the list-projects operation. -/
structure GetProjectsRequest where
  bearerToken : String
  cloudId : String
deriving DecidableEq

/-- One remote operation invocation, as recorded in the call trace. -/
inductive RemoteCall where
  | createIssue : CreateIssueRequest → RemoteCall
  | getAccessibleResources : String → RemoteCall
  | getIssueTypes : String → String → RemoteCall
  | getProjects : String → String → RemoteCall

/-- Modelled from the spec: the remote client interface (its
implementation is not under `src/`): four remote operations, each given a
bearer token and returning a typed result or an error. -/
structure Client where
  createIssue : CreateIssueRequest → Except IError CreateIssueResponse
  getAccessibleResources : AccessibleResourcesRequest → Except IError (List Site)
  getIssueTypes : GetIssueTypesRequest → Except IError (List IssueTypeInfo)
  getProjects : GetProjectsRequest → Except IError ProjectsResponse

/-- The result message built by a successful `Send`. -/
structure Message where
  id : String
  ok : Bool
  payload : Payload
  providerResponse : CreateIssueResponse

/-- First binding of a key in an association list of generic values. -/
def lookupField : List (String × Jv) → String → Option Jv
  | [], _ => none
  | (k, v) :: rest, key => if k = key then some v else lookupField rest key

/-- The raw inbound body bytes: either bytes that are not well-formed
JSON, or a well-formed JSON value. -/
inductive Body where
  | malformed : String → Body
  | wellFormed : Jv → Body

/-- Modelled from the spec: the diagnostic message produced by the JSON
parser on malformed bytes; opaque to this layer. -/
def jsonErrorMessage (raw : String) : String :=
  "invalid JSON: " ++ raw

/-- Modelled from the spec: Go's `json.Unmarshal` of a well-formed JSON
value into the `Payload` shape.  The value must be an object; a missing
or null `summary` decodes to the empty string, a missing or null
`description` decodes to nil, unknown keys are ignored, and a field of
mismatched type is an error. -/
def unmarshalPayload : Jv → Except String Payload
  | .obj fields =>
    match lookupField fields "summary" with
    | some (.bool _) | some (.num _) | some (.arr _) | some (.obj _) =>
      .error "json: cannot unmarshal value into Go struct field Payload.summary of type string"
    | summaryField =>
      match lookupField fields "description" with
      | some (.bool _) | some (.num _) | some (.arr _) | some (.str _) =>
        .error "json: cannot unmarshal value into Go struct field Payload.description of type map"
      | descriptionField =>
        .ok { summary := match summaryField with
                | some (.str s) => s
                | _ => ""
              description := match descriptionField with
                | some (.obj f) => some f
                | _ => none }
  | _ => .error "json: cannot unmarshal value into Go value of type jira.Payload"

/-- Parsing of the raw body bytes into a `Payload`, combining the
tokenizer (malformed bytes fail) with `unmarshalPayload`. -/
def parseBody : Body → Except String Payload
  | .malformed raw => .error (jsonErrorMessage raw)
  | .wellFormed v => unmarshalPayload v

/-- `Payload.extract` unmarshals the body to a JIRA payload; any
unmarshalling failure is reported through `errFailedBodyValidation`
carrying the parser's message. -/
def Payload.extract (body : Body) : Except IError Payload :=
  match parseBody body with
  | .error e => .error (errFailedBodyValidation e)
  | .ok p => .ok p

/-- `Payload.validate` ensures all mandatory properties are set: a
non-empty summary and a non-nil description. -/
def Payload.validate (p : Payload) : Option IError :=
  if p.summary = "" then
    some (errFailedBodyValidation
      "generated payload does not contaion mandatory param summary")
  else
    match p.description with
    | none => some (errFailedBodyValidation
        "generated payload does not contain mandatory param description")
    | some _ => none

/-- Modelled from the spec: `mapstructure` decoding of one string field
of the generic configuration.  An absent or null field decodes to the
empty string; a present value of any other non-string type is an error. -/
def decodeStringField (fields : List (String × Jv)) (key : String) :
    Except String String :=
  match lookupField fields key with
  | none => .ok ""
  | some .null => .ok ""
  | some (.str s) => .ok s
  | some _ => .error key

/-- Modelled from the spec: `mapstructure.Decode` of the generic
configuration onto the three tagged option fields, in declaration
order. -/
def mapstructureDecodeOpts (fields : List (String × Jv)) :
    Except String (String × String × String) :=
  match decodeStringField fields "project_key" with
  | .error e => .error e
  | .ok pk =>
    match decodeStringField fields "issue_type" with
    | .error e => .error e
    | .ok it =>
      match decodeStringField fields "cloud_id" with
      | .error e => .error e
      | .ok cid => .ok (pk, it, cid)

/-- `Opts.extract`: a nil configuration is rejected, the option fields
are decoded by mapstructure, and the secret is carried through
unchanged. -/
def Opts.extract (c : Option NotifierConfiguration) : Except IError Opts :=
  match c with
  | none => .error (errFailedOptsValidation "notifier config emtpy")
  | some cfg =>
    match mapstructureDecodeOpts cfg.opts with
    | .error _ => .error (errFailedOptsValidation "failed to decode configuration")
    | .ok (pk, it, cid) =>
      .ok { secret := cfg.secret, projectKey := pk, issueType := it, cloudId := cid }

/-- `Opts.validate` validates the notifier configuration: a nil receiver
is rejected, `issue_type` and `project_key` must be non-empty, and the
secret must be present with a non-empty token. -/
def Opts.validate : Option Opts → Option IError
  | none => some (errFailedOptsValidation "options empty")
  | some o =>
    if o.issueType = "" ∨ o.projectKey = "" then
      some (errFailedOptsValidation "issue_type or project_key is emtpy")
    else
      match o.secret with
      | none => some (errFailedOptsValidation "secret not defined in configuration")
      | some s =>
        if s.token = "" then
          some (errFailedOptsValidation "secret not defined in configuration")
        else none

/-- The upstream create-issue request built by `Send` from the validated
payload and options (source lines 47–56).  The bearer token reads the
secret, which validation has established to be present. -/
def buildRequest (payload : Payload) (opts : Opts) : CreateIssueRequest :=
  { fields :=
      { project := { key := opts.projectKey }
        issuetype := { name := opts.issueType }
        summary := payload.summary
        description := payload.description }
    cloudId := opts.cloudId
    bearerToken := (opts.secret.map NotifierSecret.token).getD "" }

/-- The `Send` pipeline: extract and validate the payload, extract and
validate the options, build the upstream request, delegate to the remote
client, and on success build the result message with a generated
identifier.  The first component mirrors Go's `(*Message, IError)` pair;
the second component is the trace of remote calls issued. -/
def Send (client : Client) (genId : String) (notifier : Notifier) (body : Body) :
    (Option Message × Option IError) × List RemoteCall :=
  match Payload.extract body with
  | .error e => ((none, some e), [])
  | .ok payload =>
    match Payload.validate payload with
    | some e => ((none, some e), [])
    | none =>
      match Opts.extract notifier.config with
      | .error e => ((none, some e), [])
      | .ok opts =>
        match Opts.validate (some opts) with
        | some e => ((none, some e), [])
        | none =>
          match client.createIssue (buildRequest payload opts) with
          | .error e =>
            ((none, some e), [RemoteCall.createIssue (buildRequest payload opts)])
          | .ok response =>
            ((some { id := genId, ok := true, payload := payload,
                     providerResponse := response }, none),
             [RemoteCall.createIssue (buildRequest payload opts)])

/-- An `id`/`name` pair in the discovery result (the shape of each
`map[string]string` literal built by `GetOptValues`). -/
structure IdName where
  id : String
  name : String
deriving DecidableEq

/-- The per-site entry of the relational sub-mapping: the `project_key`
and `issue_type` lists. -/
structure SiteOptValue where
  project_key : List IdName
  issue_type : List IdName
deriving DecidableEq

/-- The discovery result: the top-level sites list under `cloud_id` and
the relational sub-mapping `_rel.cloud_id` keyed by site id. -/
structure DiscoveryResult where
  cloud_id : List IdName
  rel : List (String × SiteOptValue)
deriving DecidableEq

/-- Go-map-style insertion into the relational sub-mapping: replaces the
binding of an existing key, appends a new key at the end. -/
def sovInsert (m : List (String × SiteOptValue)) (k : String) (v : SiteOptValue) :
    List (String × SiteOptValue) :=
  match m with
  | [] => [(k, v)]
  | (k0, v0) :: rest =>
    if k0 = k then (k, v) :: rest else (k0, v0) :: sovInsert rest k v

/-- Go-map-style lookup in the relational sub-mapping. -/
def sovLookup (m : List (String × SiteOptValue)) (k : String) : Option SiteOptValue :=
  match m with
  | [] => none
  | (k0, v0) :: rest => if k0 = k then some v0 else sovLookup rest k

/-- The per-site loop of `GetOptValues` (source lines 82–114): record the
site, list its issue types, list its projects (fail-fast on either),
record the per-site entry, and continue with the remaining sites. -/
def processSites (client : Client) (token : String) :
    List Site → List IdName → List (String × SiteOptValue) → List RemoteCall →
    (Option DiscoveryResult × Option IError) × List RemoteCall
  | [], sites, siteOptValues, trace =>
    ((some { cloud_id := sites, rel := siteOptValues }, none), trace)
  | site :: rest, sites, siteOptValues, trace =>
    let sites1 := sites ++ [{ id := site.id, name := site.name }]
    let trace1 := trace ++ [RemoteCall.getIssueTypes token site.id]
    match client.getIssueTypes { bearerToken := token, cloudId := site.id } with
    | .error e => ((none, some e), trace1)
    | .ok issueTypesResponse =>
      let issueTypes := issueTypesResponse.map fun it =>
        ({ id := it.id, name := it.name } : IdName)
      let trace2 := trace1 ++ [RemoteCall.getProjects token site.id]
      match client.getProjects { bearerToken := token, cloudId := site.id } with
      | .error e => ((none, some e), trace2)
      | .ok projects =>
        let projectKeys := projects.values.map fun pr =>
          ({ id := pr.key, name := pr.name } : IdName)
        processSites client token rest sites1
          (sovInsert siteOptValues site.id
            { project_key := projectKeys, issue_type := issueTypes })
          trace2

/-- The discovery aggregator `GetOptValues`: list the accessible sites
for the secret's token, then walk each site in order.  The first
component mirrors Go's `(*map[string]interface\x7b\x7d, error)` pair; the
second component is the trace of remote calls issued. -/
def GetOptValues (client : Client) (opts : NotifierSecret) :
    (Option DiscoveryResult × Option IError) × List RemoteCall :=
  match client.getAccessibleResources { bearerToken := opts.token } with
  | .error e => ((none, some e), [RemoteCall.getAccessibleResources opts.token])
  | .ok accessibleResourcesResponse =>
    processSites client opts.token accessibleResourcesResponse [] []
      [RemoteCall.getAccessibleResources opts.token]

/-- The per-site entry recorded by `GetOptValues` under the relational
sub-mapping: `project_key` pairs take the project's key as `id`, and
`issue_type` pairs take the issue type's id and name. -/
def siteEntry (its : List IssueTypeInfo) (ps : ProjectsResponse) : SiteOptValue :=
  { project_key := ps.values.map fun pr => { id := pr.key, name := pr.name }
    issue_type := its.map fun it => { id := it.id, name := it.name } }

/-- The remote calls issued by the per-site loop for a given list of
sites: for each site, its issue-types call followed by its projects
call. -/
def siteCalls (token : String) : List Site → List RemoteCall
  | [] => []
  | site :: rest =>
    RemoteCall.getIssueTypes token site.id ::
      RemoteCall.getProjects token site.id :: siteCalls token rest

/-- The three mapstructure-tagged option field keys, in declaration
order. -/
def optFieldKeys : List String := ["project_key", "issue_type", "cloud_id"]

/-- A field of the generic configuration is decodable when it is absent,
null, or bound to a string value. -/
def FieldDecodable (fields : List (String × Jv)) (key : String) : Prop :=
  match lookupField fields key with
  | none => True
  | some Jv.null => True
  | some (Jv.str _) => True
  | some _ => False

/-- The string a generic-configuration field decodes to: the bound string
when the field holds one, the empty string otherwise. -/
def lookupStr (fields : List (String × Jv)) (key : String) : String :=
  match lookupField fields key with
  | some (Jv.str s) => s
  | _ => ""

/-- The kind of the error of a payload-extraction result, when it is an
error. -/
def errorKindOf (r : Except IError Payload) : Option ErrKind :=
  match r with
  | .error e => some e.kind
  | .ok _ => none

/-! Concrete fixtures used to witness the theorems on concrete inputs. -/

/-- A concrete structured description document. -/
def sampleDescription : List (String × Jv) := [("type", Jv.str "doc")]

/-- A concrete well-formed body with summary and description. -/
def sampleBody : Body :=
  .wellFormed (.obj [("summary", .str "Bug"), ("description", .obj sampleDescription)])

/-- The payload `sampleBody` extracts to. -/
def samplePayload : Payload :=
  { summary := "Bug", description := some sampleDescription }

/-- A concrete secret with a non-empty token. -/
def sampleSecret : NotifierSecret := { token := "tok" }

/-- A concrete valid configuration. -/
def sampleConfig : NotifierConfiguration :=
  { opts := [("project_key", Jv.str "OPS"), ("issue_type", Jv.str "Bug"),
             ("cloud_id", Jv.str "site1")]
    secret := some sampleSecret }

/-- A notifier carrying `sampleConfig`. -/
def sampleNotifier : Notifier := { config := some sampleConfig }

/-- The options `sampleConfig` extracts to. -/
def sampleOpts : Opts :=
  { secret := some sampleSecret, projectKey := "OPS", issueType := "Bug",
    cloudId := "site1" }

/-- A concrete opaque upstream response. -/
def sampleResponse : CreateIssueResponse := { raw := "created" }

/-- A remote client that succeeds on every operation, with one accessible
site. -/
def sampleClient : Client :=
  { createIssue := fun _ => .ok sampleResponse
    getAccessibleResources := fun _ => .ok [{ id := "site1", name := "Site One" }]
    getIssueTypes := fun _ => .ok [{ id := "10001", name := "Bug" }]
    getProjects := fun _ => .ok { values := [{ id := "123", key := "OPS", name := "Operations" }] } }

/-- A remote client whose create-issue operation fails. -/
def failingClient : Client :=
  { sampleClient with createIssue := fun _ => .error (IError.remote "boom") }

/-- A remote client that reports no accessible sites. -/
def emptySitesClient : Client :=
  { sampleClient with getAccessibleResources := fun _ => .ok [] }

/-- A remote client with two accessible sites whose second site's project
lookup fails. -/
def discoveryFailClient : Client :=
  { sampleClient with
    getAccessibleResources := fun _ =>
      .ok [{ id := "s1", name := "One" }, { id := "s2", name := "Two" }]
    getProjects := fun req =>
      if req.cloudId = "s2" then .error (IError.remote "projfail")
      else .ok { values := [{ id := "1", key := "OPS", name := "Ops" }] } }

/-- A concrete well-formed body whose summary is missing (decodes to the
empty string). -/
def emptySummaryBody : Body :=
  .wellFormed (.obj [("description", .obj sampleDescription)])

/-- A notifier whose configuration lacks `project_key`. -/
def badOptsNotifier : Notifier :=
  { config := some { opts := [("issue_type", Jv.str "Bug")], secret := some sampleSecret } }

/-- The options `badOptsNotifier` extracts to. -/
def badOpts : Opts :=
  { secret := some sampleSecret, projectKey := "", issueType := "Bug", cloudId := "" }

/-- A configuration holding only an unknown extra key. -/
def extraKeysConfig : NotifierConfiguration :=
  { opts := [("extra", Jv.num 1)], secret := some sampleSecret }

/-- A configuration whose `project_key` field holds a non-string value. -/
def mismatchedConfig : NotifierConfiguration :=
  { opts := [("project_key", Jv.num 7)], secret := none }

/-! Helper lemmas about the validation steps. -/

/-- A payload with non-empty summary and non-nil description validates. -/
theorem payload_validate_none (p : Payload) (hs : p.summary ≠ "")
    (hd : p.description ≠ none) : Payload.validate p = none := by
  unfold Payload.validate
  rw [if_neg hs]
  cases hdp : p.description with
  | none => exact absurd hdp hd
  | some d => rfl

/-- Options with non-empty issue type and project key and a present
secret with non-empty token validate. -/
theorem opts_validate_none (o : Opts) (s : NotifierSecret)
    (hit : o.issueType ≠ "") (hpk : o.projectKey ≠ "")
    (hsec : o.secret = some s) (htok : s.token ≠ "") :
    Opts.validate (some o) = none := by
  simp only [Opts.validate]
  rw [if_neg (not_or.mpr ⟨hit, hpk⟩), hsec]
  exact if_neg htok

/-- Options missing project key, issue type, the secret, or its token
fail validation with an options-validation error. -/
theorem opts_validate_some_of_bad (o : Opts)
    (hbad : o.projectKey = "" ∨ o.issueType = "" ∨ o.secret = none ∨
      ∃ s, o.secret = some s ∧ s.token = "") :
    ∃ msg, Opts.validate (some o) = some (errFailedOptsValidation msg) := by
  simp only [Opts.validate]
  by_cases hpk : o.issueType = "" ∨ o.projectKey = ""
  · exact ⟨_, if_pos hpk⟩
  · rw [if_neg hpk]
    rcases hbad with h | h | h | ⟨s, hs, ht⟩
    · exact absurd (Or.inr h) hpk
    · exact absurd (Or.inl h) hpk
    · rw [h]; exact ⟨_, rfl⟩
    · rw [hs]; exact ⟨_, if_pos ht⟩

/-- C1: for every payload with non-empty summary and non-null
description, and every configuration with non-empty project key, issue
type and a secret with a non-empty token, `Send` passes both validation
steps and proceeds to the remote client's create-issue call; its outcome
is exactly the client's outcome, never a local validation error. -/
theorem jira_C1 (client : Client) (genId : String) (notifier : Notifier) (body : Body)
    (payload : Payload) (opts : Opts) (s : NotifierSecret)
    (hx : Payload.extract body = .ok payload)
    (hs : payload.summary ≠ "") (hd : payload.description ≠ none)
    (ho : Opts.extract notifier.config = .ok opts)
    (hpk : opts.projectKey ≠ "") (hit : opts.issueType ≠ "")
    (hsec : opts.secret = some s) (htok : s.token ≠ "") :
    Send client genId notifier body =
      ((match client.createIssue (buildRequest payload opts) with
        | .error e => (none, some e)
        | .ok response =>
          (some { id := genId, ok := true, payload := payload,
                  providerResponse := response }, none)),
       [RemoteCall.createIssue (buildRequest payload opts)]) := by
  unfold Send
  simp only [hx, payload_validate_none payload hs hd, ho,
    opts_validate_none opts s hit hpk hsec htok]
  cases hci : client.createIssue (buildRequest payload opts) <;> rfl

/-- Witness for C1 at a concrete body, configuration and client. -/
theorem jira_C1_witness :
    Send sampleClient "ksuid1" sampleNotifier sampleBody =
      ((some { id := "ksuid1", ok := true, payload := samplePayload,
               providerResponse := sampleResponse }, none),
       [RemoteCall.createIssue (buildRequest samplePayload sampleOpts)]) :=
  jira_C1 sampleClient "ksuid1" sampleNotifier sampleBody samplePayload sampleOpts
    sampleSecret rfl (by decide) (fun h => Option.noConfusion h) rfl
    (by decide) (by decide) rfl (by decide)

/-- Errors produced by payload extraction are body-validation errors. -/
theorem payload_extract_error_kind (body : Body) (e : IError)
    (h : Payload.extract body = .error e) : e.kind = ErrKind.bodyValidation := by
  unfold Payload.extract at h
  cases hp : parseBody body with
  | error msg =>
    simp only [hp] at h
    rw [Except.error.injEq] at h
    subst h
    rfl
  | ok p =>
    simp only [hp] at h
    exact Except.noConfusion h

/-- Errors produced by payload validation are body-validation errors. -/
theorem payload_validate_error_kind (p : Payload) (e : IError)
    (h : Payload.validate p = some e) : e.kind = ErrKind.bodyValidation := by
  unfold Payload.validate at h
  by_cases hs : p.summary = ""
  · rw [if_pos hs, Option.some.injEq] at h
    subst h
    rfl
  · rw [if_neg hs] at h
    cases hd : p.description with
    | none =>
      simp only [hd] at h
      rw [Option.some.injEq] at h
      subst h
      rfl
    | some d =>
      simp only [hd] at h
      exact Option.noConfusion h

/-- C2: for any payload with empty summary, and likewise for any
configuration missing project key, issue type or the secret's token,
`Send` returns a validation error and the remote client is never invoked
(the call trace is empty) — whatever the payload, in the configuration
case. -/
theorem jira_C2 :
    (∀ (client : Client) (genId : String) (notifier : Notifier) (body : Body)
        (payload : Payload),
      Payload.extract body = .ok payload → payload.summary = "" →
      Send client genId notifier body =
        ((none, some (errFailedBodyValidation
          "generated payload does not contaion mandatory param summary")), [])) ∧
    (∀ (client : Client) (genId : String) (notifier : Notifier) (body : Body)
        (payload : Payload) (opts : Opts),
      Payload.extract body = .ok payload → Payload.validate payload = none →
      Opts.extract notifier.config = .ok opts →
      (opts.projectKey = "" ∨ opts.issueType = "" ∨ opts.secret = none ∨
        ∃ s, opts.secret = some s ∧ s.token = "") →
      ∃ msg, Send client genId notifier body =
        ((none, some (errFailedOptsValidation msg)), [])) ∧
    (∀ (client : Client) (genId : String) (notifier : Notifier) (body : Body)
        (opts : Opts),
      Opts.extract notifier.config = .ok opts →
      (opts.projectKey = "" ∨ opts.issueType = "" ∨ opts.secret = none ∨
        ∃ s, opts.secret = some s ∧ s.token = "") →
      (Send client genId notifier body).2 = [] ∧
      ∃ e, (Send client genId notifier body).1 = (none, some e) ∧
        (e.kind = ErrKind.bodyValidation ∨ e.kind = ErrKind.optsValidation)) := by
  refine ⟨?_, ?_, ?_⟩
  · intro client genId notifier body payload hx hsum
    have hval : Payload.validate payload =
        some (errFailedBodyValidation
          "generated payload does not contaion mandatory param summary") := by
      unfold Payload.validate
      rw [if_pos hsum]
    unfold Send
    simp only [hx, hval]
  · intro client genId notifier body payload opts hx hv ho hbad
    obtain ⟨msg, hval⟩ := opts_validate_some_of_bad opts hbad
    refine ⟨msg, ?_⟩
    unfold Send
    simp only [hx, hv, ho, hval]
  · intro client genId notifier body opts ho hbad
    cases hx : Payload.extract body with
    | error e =>
      have hsend : Send client genId notifier body = ((none, some e), []) := by
        unfold Send
        simp only [hx]
      rw [hsend]
      exact ⟨rfl, e, rfl, Or.inl (payload_extract_error_kind body e hx)⟩
    | ok payload =>
      cases hv : Payload.validate payload with
      | some e =>
        have hsend : Send client genId notifier body = ((none, some e), []) := by
          unfold Send
          simp only [hx, hv]
        rw [hsend]
        exact ⟨rfl, e, rfl, Or.inl (payload_validate_error_kind payload e hv)⟩
      | none =>
        obtain ⟨msg, hval⟩ := opts_validate_some_of_bad opts hbad
        have hsend : Send client genId notifier body =
            ((none, some (errFailedOptsValidation msg)), []) := by
          unfold Send
          simp only [hx, hv, ho, hval]
        rw [hsend]
        exact ⟨rfl, errFailedOptsValidation msg, rfl, Or.inr rfl⟩

/-- Witness for C2: a body with missing summary is rejected with the
payload validation error and no remote call; a configuration with empty
project key is rejected with an options validation error and no remote
call, also for a malformed body. -/
theorem jira_C2_witness :
    (Send sampleClient "k" sampleNotifier emptySummaryBody =
      ((none, some (errFailedBodyValidation
        "generated payload does not contaion mandatory param summary")), [])) ∧
    (∃ msg, Send sampleClient "k" badOptsNotifier sampleBody =
      ((none, some (errFailedOptsValidation msg)), [])) ∧
    ((Send sampleClient "k" badOptsNotifier (Body.malformed "oops")).2 = [] ∧
      ∃ e, (Send sampleClient "k" badOptsNotifier (Body.malformed "oops")).1 =
          (none, some e) ∧
        (e.kind = ErrKind.bodyValidation ∨ e.kind = ErrKind.optsValidation)) :=
  ⟨jira_C2.1 sampleClient "k" sampleNotifier emptySummaryBody
      { summary := "", description := some sampleDescription } rfl rfl,
   jira_C2.2.1 sampleClient "k" badOptsNotifier sampleBody samplePayload badOpts
      rfl rfl rfl (Or.inl rfl),
   jira_C2.2.2 sampleClient "k" badOptsNotifier (Body.malformed "oops") badOpts
      rfl (Or.inl rfl)⟩

/-- C4: whenever `Send` returns a message, the message carries the
generated identifier, `ok = true`, the payload extracted from the input
body, and the upstream response of the create-issue call unmodified. -/
theorem jira_C4 (client : Client) (genId : String) (notifier : Notifier) (body : Body)
    (msg : Message) (h : (Send client genId notifier body).1.1 = some msg) :
    msg.id = genId ∧ msg.ok = true ∧ Payload.extract body = .ok msg.payload ∧
    ∃ req, (Send client genId notifier body).2 = [RemoteCall.createIssue req] ∧
      client.createIssue req = .ok msg.providerResponse := by
  unfold Send at h ⊢
  cases hx : Payload.extract body with
  | error e => simp only [hx] at h; exact Option.noConfusion h
  | ok payload =>
    simp only [hx] at h ⊢
    cases hv : Payload.validate payload with
    | some e => simp only [hv] at h; exact Option.noConfusion h
    | none =>
      simp only [hv] at h ⊢
      cases ho : Opts.extract notifier.config with
      | error e => simp only [ho] at h; exact Option.noConfusion h
      | ok opts =>
        simp only [ho] at h ⊢
        cases hov : Opts.validate (some opts) with
        | some e => simp only [hov] at h; exact Option.noConfusion h
        | none =>
          simp only [hov] at h ⊢
          cases hci : client.createIssue (buildRequest payload opts) with
          | error e => simp only [hci] at h; exact Option.noConfusion h
          | ok response =>
            simp only [hci] at h ⊢
            rw [Option.some.injEq] at h
            subst h
            exact ⟨rfl, rfl, rfl, buildRequest payload opts, rfl, hci⟩

/-- Witness for C4 at a concrete body, configuration and client. -/
theorem jira_C4_witness :
    ({ id := "ksuid1", ok := true, payload := samplePayload,
       providerResponse := sampleResponse : Message }.id = "ksuid1" ∧
     { id := "ksuid1", ok := true, payload := samplePayload,
       providerResponse := sampleResponse : Message }.ok = true ∧
     Payload.extract sampleBody = .ok samplePayload ∧
     ∃ req, (Send sampleClient "ksuid1" sampleNotifier sampleBody).2 =
         [RemoteCall.createIssue req] ∧
       sampleClient.createIssue req = .ok sampleResponse) :=
  jira_C4 sampleClient "ksuid1" sampleNotifier sampleBody
    { id := "ksuid1", ok := true, payload := samplePayload,
      providerResponse := sampleResponse } rfl

/-- C5: `Send` returns either a message and no error or no message and an
error, never both and never neither; and when the create-issue call is
the one issued and it fails, the error `Send` returns is exactly the
remote client's error. -/
theorem jira_C5 :
    (∀ (client : Client) (genId : String) (notifier : Notifier) (body : Body),
      ((Send client genId notifier body).1.1.isSome = true ∧
        (Send client genId notifier body).1.2 = none) ∨
      ((Send client genId notifier body).1.1 = none ∧
        (Send client genId notifier body).1.2.isSome = true)) ∧
    (∀ (client : Client) (genId : String) (notifier : Notifier) (body : Body)
        (req : CreateIssueRequest) (e : IError),
      (Send client genId notifier body).2 = [RemoteCall.createIssue req] →
      client.createIssue req = .error e →
      (Send client genId notifier body).1 = (none, some e)) := by
  constructor
  · intro client genId notifier body
    unfold Send
    cases hx : Payload.extract body with
    | error e => simp
    | ok payload =>
      cases hv : Payload.validate payload with
      | some e => simp [hv]
      | none =>
        cases ho : Opts.extract notifier.config with
        | error e => simp [hv, ho]
        | ok opts =>
          cases hov : Opts.validate (some opts) with
          | some e => simp [hv, ho, hov]
          | none =>
            cases hci : client.createIssue (buildRequest payload opts) with
            | error e => simp [hv, ho, hov, hci]
            | ok response => simp [hv, ho, hov, hci]
  · intro client genId notifier body req e htr hci
    unfold Send at htr ⊢
    cases hx : Payload.extract body with
    | error e0 => simp only [hx] at htr; exact List.noConfusion htr
    | ok payload =>
      simp only [hx] at htr ⊢
      cases hv : Payload.validate payload with
      | some e0 => simp only [hv] at htr; exact List.noConfusion htr
      | none =>
        simp only [hv] at htr ⊢
        cases ho : Opts.extract notifier.config with
        | error e0 => simp only [ho] at htr; exact List.noConfusion htr
        | ok opts =>
          simp only [ho] at htr ⊢
          cases hov : Opts.validate (some opts) with
          | some e0 => simp only [hov] at htr; exact List.noConfusion htr
          | none =>
            simp only [hov] at htr ⊢
            cases hci2 : client.createIssue (buildRequest payload opts) with
            | error e2 =>
              simp only [hci2, List.cons.injEq, RemoteCall.createIssue.injEq,
                and_true] at htr
              rw [← htr, hci2] at hci
              rw [Except.error.injEq] at hci
              subst hci
              rfl
            | ok response =>
              simp only [hci2, List.cons.injEq, RemoteCall.createIssue.injEq,
                and_true] at htr
              rw [← htr, hci2] at hci
              exact absurd hci (by simp)

/-- Witness for C5's pass-through clause: a failing remote client's error
is returned unchanged. -/
theorem jira_C5_witness :
    (Send failingClient "k" sampleNotifier sampleBody).1 =
      (none, some (IError.remote "boom")) :=
  jira_C5.2 failingClient "k" sampleNotifier sampleBody
    (buildRequest samplePayload sampleOpts) (IError.remote "boom") rfl rfl

/-! Helper lemmas about the relational sub-mapping. -/

/-- Looking up the key just inserted yields the inserted value. -/
theorem sovLookup_insert_self (m : List (String × SiteOptValue)) (k : String)
    (v : SiteOptValue) : sovLookup (sovInsert m k v) k = some v := by
  induction m with
  | nil => simp [sovInsert, sovLookup]
  | cons hd tl ih =>
    obtain ⟨k0, v0⟩ := hd
    by_cases h : k0 = k
    · simp [sovInsert, sovLookup, h]
    · simp [sovInsert, sovLookup, h, ih]

/-- Insertion leaves the bindings of other keys unchanged. -/
theorem sovLookup_insert_ne (m : List (String × SiteOptValue)) (k k' : String)
    (v : SiteOptValue) (h : k' ≠ k) :
    sovLookup (sovInsert m k v) k' = sovLookup m k' := by
  induction m with
  | nil => simp [sovInsert, sovLookup, Ne.symm h]
  | cons hd tl ih =>
    obtain ⟨k0, v0⟩ := hd
    by_cases h0 : k0 = k
    · subst h0
      simp [sovInsert, sovLookup, Ne.symm h]
    · simp [sovInsert, sovLookup, h0, ih]

/-- The per-site loop is fail-fast: when every earlier site's lookups
succeed and some lookup of the given site fails, the loop returns exactly
that error and no result, whatever was accumulated so far. -/
theorem processSites_fails (client : Client) (token : String) (site : Site) (e : IError)
    (hfail : client.getIssueTypes { bearerToken := token, cloudId := site.id } = .error e ∨
      ((∃ its, client.getIssueTypes { bearerToken := token, cloudId := site.id } = .ok its) ∧
        client.getProjects { bearerToken := token, cloudId := site.id } = .error e)) :
    ∀ (pre : List Site) (post : List Site) (acc : List IdName)
      (sov : List (String × SiteOptValue)) (trace : List RemoteCall),
      (∀ x ∈ pre,
        (∃ its, client.getIssueTypes { bearerToken := token, cloudId := x.id } = .ok its) ∧
        (∃ ps, client.getProjects { bearerToken := token, cloudId := x.id } = .ok ps)) →
      (processSites client token (pre ++ site :: post) acc sov trace).1 = (none, some e) := by
  intro pre
  induction pre with
  | nil =>
    intro post acc sov trace _
    rcases hfail with h | ⟨⟨its, hits⟩, hps⟩
    · simp [processSites, h]
    · simp [processSites, hits, hps]
  | cons x rest ih =>
    intro post acc sov trace hpre
    obtain ⟨⟨its, hits⟩, ⟨ps, hps⟩⟩ := hpre x (List.mem_cons_self x rest)
    simp only [List.cons_append, processSites, hits, hps]
    exact ih post _ _ _ fun y hy => hpre y (List.mem_cons_of_mem x hy)

/-- C3: whenever some site's issue-types or projects lookup fails (with
all earlier sites succeeding), `GetOptValues` returns no result mapping
and exactly that error — data accumulated for earlier sites is not
observable. -/
theorem jira_C3 (client : Client) (s : NotifierSecret) (pre : List Site) (site : Site)
    (post : List Site) (e : IError)
    (hacc : client.getAccessibleResources { bearerToken := s.token } =
      .ok (pre ++ site :: post))
    (hpre : ∀ x ∈ pre,
      (∃ its, client.getIssueTypes { bearerToken := s.token, cloudId := x.id } = .ok its) ∧
      (∃ ps, client.getProjects { bearerToken := s.token, cloudId := x.id } = .ok ps))
    (hfail : client.getIssueTypes { bearerToken := s.token, cloudId := site.id } = .error e ∨
      ((∃ its, client.getIssueTypes { bearerToken := s.token, cloudId := site.id } = .ok its) ∧
        client.getProjects { bearerToken := s.token, cloudId := site.id } = .error e)) :
    (GetOptValues client s).1 = (none, some e) := by
  unfold GetOptValues
  simp only [hacc]
  exact processSites_fails client s.token site e hfail pre post [] [] _ hpre

/-- Witness for C3: two sites, the second site's project lookup fails;
the whole discovery returns that error and no result. -/
theorem jira_C3_witness :
    (GetOptValues discoveryFailClient sampleSecret).1 =
      (none, some (IError.remote "projfail")) :=
  jira_C3 discoveryFailClient sampleSecret [{ id := "s1", name := "One" }]
    { id := "s2", name := "Two" } [] (IError.remote "projfail") rfl
    (by
      intro x hx
      rw [List.mem_singleton] at hx
      subst hx
      exact ⟨⟨[{ id := "10001", name := "Bug" }], rfl⟩,
        ⟨{ values := [{ id := "1", key := "OPS", name := "Ops" }] }, rfl⟩⟩)
    (Or.inr ⟨⟨[{ id := "10001", name := "Bug" }], rfl⟩, rfl⟩)

/-- C6: with zero accessible sites, `GetOptValues` succeeds with the
empty sites list and empty relational sub-mapping, after exactly one
remote call (the list-accessible-sites call). -/
theorem jira_C6 (client : Client) (s : NotifierSecret)
    (hacc : client.getAccessibleResources { bearerToken := s.token } = .ok []) :
    GetOptValues client s =
      ((some { cloud_id := [], rel := [] }, none),
       [RemoteCall.getAccessibleResources s.token]) := by
  unfold GetOptValues
  simp only [hacc]
  rfl

/-- Witness for C6 at a concrete client reporting no sites. -/
theorem jira_C6_witness :
    GetOptValues emptySitesClient sampleSecret =
      ((some { cloud_id := [], rel := [] }, none),
       [RemoteCall.getAccessibleResources sampleSecret.token]) :=
  jira_C6 emptySitesClient sampleSecret rfl

/-- On success the per-site loop appends, to the incoming trace, exactly
the issue-types and projects calls of each site in order. -/
theorem processSites_trace (client : Client) (token : String) :
    ∀ (sites : List Site) (acc : List IdName) (sov : List (String × SiteOptValue))
      (trace : List RemoteCall),
      (processSites client token sites acc sov trace).1.2 = none →
      (processSites client token sites acc sov trace).2 =
        trace ++ siteCalls token sites := by
  intro sites
  induction sites with
  | nil => intro acc sov trace _; simp [processSites, siteCalls]
  | cons site rest ih =>
    intro acc sov trace hok
    cases hits : client.getIssueTypes { bearerToken := token, cloudId := site.id } with
    | error e => simp [processSites, hits] at hok
    | ok its =>
      cases hps : client.getProjects { bearerToken := token, cloudId := site.id } with
      | error e => simp [processSites, hits, hps] at hok
      | ok ps =>
        simp only [processSites, hits, hps] at hok ⊢
        rw [ih _ _ _ hok]
        simp [siteCalls]

/-- The per-site loop issues two calls per site. -/
theorem siteCalls_length (token : String) :
    ∀ sites : List Site, (siteCalls token sites).length = 2 * sites.length := by
  intro sites
  induction sites with
  | nil => rfl
  | cons site rest ih =>
    simp only [siteCalls, List.length_cons, ih, List.length]
    omega

/-- C8: a successful `GetOptValues` over the sites list issues exactly
the list-accessible-sites call followed, for each site in order, by its
issue-types call and then its projects call — `1 + 2 × n` remote calls in
total. -/
theorem jira_C8 (client : Client) (s : NotifierSecret) (L : List Site)
    (hacc : client.getAccessibleResources { bearerToken := s.token } = .ok L)
    (hok : (GetOptValues client s).1.2 = none) :
    (GetOptValues client s).2 =
      RemoteCall.getAccessibleResources s.token :: siteCalls s.token L ∧
    (GetOptValues client s).2.length = 1 + 2 * L.length := by
  unfold GetOptValues at hok ⊢
  simp only [hacc] at hok ⊢
  rw [processSites_trace client s.token L [] [] _ hok]
  refine ⟨by simp, ?_⟩
  rw [List.singleton_append, List.length_cons, siteCalls_length s.token L]
  omega

/-- Witness for C8 at a concrete one-site client. -/
theorem jira_C8_witness :
    ((GetOptValues sampleClient sampleSecret).2 =
      RemoteCall.getAccessibleResources sampleSecret.token ::
        siteCalls sampleSecret.token [{ id := "site1", name := "Site One" }] ∧
    (GetOptValues sampleClient sampleSecret).2.length =
      1 + 2 * [({ id := "site1", name := "Site One" } : Site)].length) :=
  jira_C8 sampleClient sampleSecret [{ id := "site1", name := "Site One" }] rfl rfl

/-- On success, the relational entry at any id whose site occurs in the
processed list (or whose entry was already the one its lookups dictate)
is the entry built from that id's issue-types and projects responses. -/
theorem processSites_rel (client : Client) (token : String) (k : String)
    (its : List IssueTypeInfo) (ps : ProjectsResponse)
    (hits : client.getIssueTypes { bearerToken := token, cloudId := k } = .ok its)
    (hps : client.getProjects { bearerToken := token, cloudId := k } = .ok ps) :
    ∀ (sites : List Site) (acc : List IdName) (sov : List (String × SiteOptValue))
      (trace : List RemoteCall) (r : DiscoveryResult),
      (processSites client token sites acc sov trace).1.1 = some r →
      (k ∈ sites.map Site.id ∨ sovLookup sov k = some (siteEntry its ps)) →
      sovLookup r.rel k = some (siteEntry its ps) := by
  intro sites
  induction sites with
  | nil =>
    intro acc sov trace r hr hk
    simp only [processSites] at hr
    rw [Option.some.injEq] at hr
    subst hr
    rcases hk with hk | hk
    · simp at hk
    · exact hk
  | cons site rest ih =>
    intro acc sov trace r hr hk
    cases hsits : client.getIssueTypes { bearerToken := token, cloudId := site.id } with
    | error e => simp [processSites, hsits] at hr
    | ok its0 =>
      cases hsps : client.getProjects { bearerToken := token, cloudId := site.id } with
      | error e => simp [processSites, hsits, hsps] at hr
      | ok ps0 =>
        simp only [processSites, hsits, hsps] at hr
        by_cases hmem : k ∈ rest.map Site.id
        · exact ih _ _ _ _ hr (Or.inl hmem)
        · by_cases hkid : k = site.id
          · subst hkid
            rw [hits] at hsits
            rw [hps] at hsps
            rw [Except.ok.injEq] at hsits hsps
            subst hsits
            subst hsps
            refine ih _ _ _ _ hr (Or.inr ?_)
            rw [sovLookup_insert_self]
            rfl
          · rcases hk with hk | hk
            · rw [List.map_cons, List.mem_cons] at hk
              rcases hk with hk | hk
              · exact absurd hk hkid
              · exact absurd hk hmem
            · refine ih _ _ _ _ hr (Or.inr ?_)
              rw [sovLookup_insert_ne _ _ _ _ hkid]
              exact hk

/-- C7: for every site processed successfully by `GetOptValues`, the
relational entry keyed by the site's id holds the issue-type id/name
pairs from the issue-type response and project pairs whose id is the
project's key field and whose name is the project's name. -/
theorem jira_C7 (client : Client) (s : NotifierSecret) (L : List Site) (site : Site)
    (r : DiscoveryResult) (its : List IssueTypeInfo) (ps : ProjectsResponse)
    (hacc : client.getAccessibleResources { bearerToken := s.token } = .ok L)
    (hmem : site ∈ L)
    (hr : (GetOptValues client s).1.1 = some r)
    (hits : client.getIssueTypes { bearerToken := s.token, cloudId := site.id } = .ok its)
    (hps : client.getProjects { bearerToken := s.token, cloudId := site.id } = .ok ps) :
    sovLookup r.rel site.id = some (siteEntry its ps) := by
  unfold GetOptValues at hr
  simp only [hacc] at hr
  exact processSites_rel client s.token site.id its ps hits hps L [] [] _ r hr
    (Or.inl (List.mem_map_of_mem Site.id hmem))

/-- Witness for C7 at a concrete one-site client: the entry under the
site id uses the project's key as id. -/
theorem jira_C7_witness :
    sovLookup ({ cloud_id := [{ id := "site1", name := "Site One" }],
                 rel := [("site1",
                   siteEntry [{ id := "10001", name := "Bug" }]
                     { values := [{ id := "123", key := "OPS", name := "Operations" }] })] :
                 DiscoveryResult }).rel "site1" =
      some (siteEntry [{ id := "10001", name := "Bug" }]
        { values := [{ id := "123", key := "OPS", name := "Operations" }] }) :=
  jira_C7 sampleClient sampleSecret [{ id := "site1", name := "Site One" }]
    { id := "site1", name := "Site One" }
    { cloud_id := [{ id := "site1", name := "Site One" }],
      rel := [("site1",
        siteEntry [{ id := "10001", name := "Bug" }]
          { values := [{ id := "123", key := "OPS", name := "Operations" }] })] }
    [{ id := "10001", name := "Bug" }]
    { values := [{ id := "123", key := "OPS", name := "Operations" }] }
    rfl (List.mem_singleton.mpr rfl) rfl rfl rfl

/-- C9 counterexample: on malformed bytes the extraction error is built
by `errFailedBodyValidation` — the same constructor, and hence the same
error kind, as the payload validation errors; it is not a kind of its own
distinguished from the validation errors. -/
theorem jira_C9_counterexample :
    Payload.extract (Body.malformed "not json") =
      .error (errFailedBodyValidation (jsonErrorMessage "not json")) ∧
    errorKindOf (Payload.extract (Body.malformed "not json")) =
      some ErrKind.bodyValidation ∧
    (Payload.validate { summary := "", description := none }).map IError.kind =
      some ErrKind.bodyValidation :=
  ⟨rfl, rfl, rfl⟩

/-- C9 amended: for any input bytes that are not well-formed structured
data matching the expected payload shape — non-JSON bytes as well as
well-formed JSON with a non-object top level or a mismatched field type,
i.e. any body the parsing step rejects — payload extraction fails with
the body-validation error carrying the parser's message (not a distinct
parse-error kind), and `Send` returns that error with no remote call. -/
theorem jira_C9_amended (client : Client) (genId : String) (notifier : Notifier)
    (body : Body) (msg : String)
    (hp : parseBody body = .error msg) :
    Payload.extract body = .error (errFailedBodyValidation msg) ∧
    errorKindOf (Payload.extract body) = some ErrKind.bodyValidation ∧
    Send client genId notifier body =
      ((none, some (errFailedBodyValidation msg)), []) := by
  have hx : Payload.extract body = .error (errFailedBodyValidation msg) := by
    unfold Payload.extract
    simp only [hp]
  refine ⟨hx, ?_, ?_⟩
  · rw [hx]
    rfl
  · unfold Send
    simp only [hx]

/-- Witness for the amended C9 at a well-formed JSON object whose
`summary` field has a mismatched (numeric) type, a shape failure rather
than a tokenization failure. -/
theorem jira_C9_amended_witness :
    parseBody (Body.wellFormed (Jv.obj [("summary", Jv.num 5)])) = .error
      "json: cannot unmarshal value into Go struct field Payload.summary of type string" ∧
    (Payload.extract (Body.wellFormed (Jv.obj [("summary", Jv.num 5)])) = .error
      (errFailedBodyValidation
        "json: cannot unmarshal value into Go struct field Payload.summary of type string") ∧
    errorKindOf (Payload.extract (Body.wellFormed (Jv.obj [("summary", Jv.num 5)]))) =
      some ErrKind.bodyValidation ∧
    Send sampleClient "k" sampleNotifier (Body.wellFormed (Jv.obj [("summary", Jv.num 5)])) =
      ((none, some (errFailedBodyValidation
        "json: cannot unmarshal value into Go struct field Payload.summary of type string")),
       [])) :=
  ⟨rfl,
   jira_C9_amended sampleClient "k" sampleNotifier
     (Body.wellFormed (Jv.obj [("summary", Jv.num 5)]))
     "json: cannot unmarshal value into Go struct field Payload.summary of type string"
     rfl⟩

/-- A decodable field decodes to its bound string, the empty string when
absent or null. -/
theorem decodeStringField_ok (fields : List (String × Jv)) (key : String)
    (h : FieldDecodable fields key) :
    decodeStringField fields key = .ok (lookupStr fields key) := by
  unfold FieldDecodable at h
  unfold decodeStringField lookupStr
  cases hl : lookupField fields key with
  | none => rfl
  | some v =>
    rw [hl] at h
    cases v with
    | null => rfl
    | str s => rfl
    | bool b => exact False.elim h
    | num n => exact False.elim h
    | arr xs => exact False.elim h
    | obj fs => exact False.elim h

/-- A non-decodable field makes the field decode fail. -/
theorem decodeStringField_err (fields : List (String × Jv)) (key : String)
    (h : ¬ FieldDecodable fields key) :
    decodeStringField fields key = .error key := by
  unfold FieldDecodable at h
  unfold decodeStringField
  cases hl : lookupField fields key with
  | none => rw [hl] at h; exact absurd trivial h
  | some v =>
    rw [hl] at h
    cases v with
    | null => exact absurd trivial h
    | str s => exact absurd trivial h
    | bool b => rfl
    | num n => rfl
    | arr xs => rfl
    | obj fs => rfl

/-- C10: options extraction fails only when the configuration object is
nil or one of the three option fields is present with a non-string value;
absent fields (and unknown extra keys) decode fine, absent ones to empty
strings, which only the later validation step rejects. -/
theorem jira_C10 :
    (Opts.extract none = .error (errFailedOptsValidation "notifier config emtpy")) ∧
    (∀ cfg : NotifierConfiguration,
      (∀ k ∈ optFieldKeys, FieldDecodable cfg.opts k) →
      Opts.extract (some cfg) = .ok
        { secret := cfg.secret
          projectKey := lookupStr cfg.opts "project_key"
          issueType := lookupStr cfg.opts "issue_type"
          cloudId := lookupStr cfg.opts "cloud_id" }) ∧
    (∀ cfg : NotifierConfiguration,
      (∃ k ∈ optFieldKeys, ¬ FieldDecodable cfg.opts k) →
      Opts.extract (some cfg) =
        .error (errFailedOptsValidation "failed to decode configuration")) ∧
    (∀ o : Opts, o.projectKey = "" →
      Opts.validate (some o) =
        some (errFailedOptsValidation "issue_type or project_key is emtpy")) := by
  refine ⟨rfl, ?_, ?_, ?_⟩
  · intro cfg hdec
    have h1 := decodeStringField_ok cfg.opts "project_key"
      (hdec _ (by simp [optFieldKeys]))
    have h2 := decodeStringField_ok cfg.opts "issue_type"
      (hdec _ (by simp [optFieldKeys]))
    have h3 := decodeStringField_ok cfg.opts "cloud_id"
      (hdec _ (by simp [optFieldKeys]))
    unfold Opts.extract mapstructureDecodeOpts
    simp only [h1, h2, h3]
  · intro cfg hnd
    obtain ⟨k, hk, hbad⟩ := hnd
    unfold Opts.extract mapstructureDecodeOpts
    by_cases d1 : FieldDecodable cfg.opts "project_key"
    · simp only [decodeStringField_ok _ _ d1]
      by_cases d2 : FieldDecodable cfg.opts "issue_type"
      · simp only [decodeStringField_ok _ _ d2]
        by_cases d3 : FieldDecodable cfg.opts "cloud_id"
        · exfalso
          simp only [optFieldKeys, List.mem_cons, List.mem_singleton] at hk
          rcases hk with rfl | rfl | hk
          · exact hbad d1
          · exact hbad d2
          · rcases hk with rfl | hk
            · exact hbad d3
            · exact absurd hk (List.not_mem_nil k)
        · simp only [decodeStringField_err _ _ d3]
      · simp only [decodeStringField_err _ _ d2]
    · simp only [decodeStringField_err _ _ d1]
  · intro o hpk
    simp only [Opts.validate]
    rw [if_pos (Or.inr hpk)]

/-- Witness for C10: a config with only an unknown key extracts to empty
option fields, a config with a numeric `project_key` fails to decode, and
empty `project_key` is rejected by validation. -/
theorem jira_C10_witness :
    (Opts.extract (some extraKeysConfig) = .ok
      { secret := some sampleSecret, projectKey := "", issueType := "",
        cloudId := "" }) ∧
    (Opts.extract (some mismatchedConfig) =
      .error (errFailedOptsValidation "failed to decode configuration")) ∧
    (Opts.validate (some badOpts) =
      some (errFailedOptsValidation "issue_type or project_key is emtpy")) :=
  ⟨jira_C10.2.1 extraKeysConfig
      (by intro k hk; fin_cases hk <;> trivial),
   jira_C10.2.2.1 mismatchedConfig
      ⟨"project_key", by simp [optFieldKeys], fun h => h⟩,
   jira_C10.2.2.2 badOpts rfl⟩
